import Mathlib

/-!
Verification development for the font-scope SVG typesetting core
(src/src-tauri/src/lib.rs).

The Rust core turns a parsed font face, a text block and layout/styling
parameters into an SVG document: one group of paths per visible glyph,
positioned for horizontal or vertical writing.

Shallow embedding conventions:
* `f64`/`f32` arithmetic is embedded as exact rationals (`ℚ`); decimal
  literals such as `1.2` denote the exact rational `6/5`.
* The parsed font face (`ttf_parser::Face`) is embedded as a record of the
  table-lookup functions the core consults; glyph ids are `ℕ` (`u16` values),
  raw table entries keep their Rust integer types (`u16 → ℕ`, `i16 → ℤ`).
* The rustybuzz shaping pass is an oracle `String → List ShapedGlyph`
  (the core only reads `glyph_id` and `y_advance` of each shaped glyph).
* The emitted SVG markup is embedded structurally: a `SvgDoc` holds the
  computed canvas size and the ordered glyph groups, each group holding the
  path elements with their style attributes exactly as the `format!` calls
  write them.  Path-data coordinates are rounded to two fractional decimal
  digits (`round2`) where the code formats them with `{:.2}`.
-/

namespace FontScope

/-- One stroke layer of the request: `struct StrokeLayer` in lib.rs. -/
structure StrokeLayer where
  enabled : Bool
  width : ℚ
  color : String
deriving DecidableEq, Repr

/-- The request payload: `struct SvgExportRequest` in lib.rs. -/
structure SvgExportRequest where
  font_name : String
  text : String
  font_size : ℚ
  text_color : String
  stroke_layers : List StrokeLayer
  export_mode : String
  vertical : Bool
deriving DecidableEq, Repr

/-- A glyph bounding box (the `y` fields of `ttf_parser::Rect` the core reads). -/
structure BBox where
  y_min : ℤ
  y_max : ℤ
deriving DecidableEq, Repr

/-- One outline segment reported by `ttf_parser::Face::outline_glyph` to an
`OutlineBuilder`, in raw font units. -/
inductive OutlineCmd where
  | moveTo (x y : ℚ)
  | lineTo (x y : ℚ)
  | quadTo (x1 y1 x y : ℚ)
  | curveTo (x1 y1 x2 y2 x y : ℚ)
  | close
deriving DecidableEq, Repr

/-- The parsed font face: the lookups of `ttf_parser::Face` that the core
consults.  `glyph_index` is `Face::glyph_index`, advances are the `u16`
table values, `glyph_y_origin` is the VORG lookup (`i16`),
`glyph_ver_side_bearing` is `i16`, `ascender` is `i16`. -/
structure Face where
  units_per_em : ℕ
  glyph_index : Char → Option ℕ
  glyph_hor_advance : ℕ → Option ℕ
  glyph_ver_advance : ℕ → Option ℕ
  glyph_y_origin : ℕ → Option ℤ
  glyph_ver_side_bearing : ℕ → Option ℤ
  glyph_bounding_box : ℕ → Option BBox
  ascender : ℤ
  outline_glyph : ℕ → List OutlineCmd

/-- One glyph of the rustybuzz shaping output for a line: the paired entries
of `glyph_infos()` (its `glyph_id : u32`) and `glyph_positions()`
(its `y_advance : i32`). -/
structure ShapedGlyph where
  glyph_id : ℕ
  y_advance : ℤ
deriving DecidableEq, Repr

/-- A path-data command as written into the `d` attribute string, with the
already transformed and `{:.2}`-rounded output coordinates. -/
inductive PathCmd where
  | moveTo (x y : ℚ)
  | lineTo (x y : ℚ)
  | quadTo (x1 y1 x y : ℚ)
  | curveTo (x1 y1 x2 y2 x y : ℚ)
  | close
deriving DecidableEq, Repr

/-- One `<path .../>` element of a glyph group, tagged by which `format!`
template produced it: `plain` has no fill/stroke attributes (path_only mode),
`stroked` carries `fill`, `stroke`, `stroke-width` (with rounded
joins and caps, constant in the template), `filled` carries only `fill`. -/
inductive SvgPathElem where
  | plain (d : List PathCmd)
  | stroked (d : List PathCmd) (fill : String) (stroke : String) (strokeWidth : ℚ)
  | filled (d : List PathCmd) (fill : String)
deriving DecidableEq, Repr

/-- A `<g id="char-{i}" data-char="{c}">` group wrapping one visible glyph. -/
structure GlyphGroup where
  char_index : ℕ
  data_char : String
  paths : List SvgPathElem
deriving DecidableEq, Repr

/-- The generated document: canvas extent (the code's `svg_width`/`svg_height`
variables, which the header and `viewBox` serialize) and the glyph groups in
emission order. -/
structure SvgDoc where
  width : ℚ
  height : ℚ
  groups : List GlyphGroup
deriving DecidableEq, Repr

/-- Floor of a rational as an integer (`den` is positive, so Euclidean
division of `num` by `den` floors). -/
def ratFloor (q : ℚ) : ℤ := q.num.ediv (q.den : ℤ)

/-- Round-to-nearest on a rational (halves up): `⌊q + 1/2⌋`. -/
def ratRound (q : ℚ) : ℤ := ratFloor (q + 1 / 2)

/-- Rounding to two fractional decimal digits, modelling the `{:.2}`
formatting of path coordinates. -/
def round2 (q : ℚ) : ℚ := (ratRound (q * 100) : ℚ) / 100

/-- Splits a character list at every newline: the resulting list has one
entry per `\n`-terminated segment plus one final (possibly empty)
unterminated segment, so it is never empty. -/
def splitNl : List Char → List (List Char)
  | [] => [[]]
  | c :: rest =>
      match splitNl rest with
      | [] => [[]]
      | h :: t => if c = '\n' then [] :: h :: t else (c :: h) :: t

/-- Strips one trailing carriage return, for `\r\n` line terminators. -/
def stripCr (p : List Char) : List Char :=
  if p.getLast? = some '\r' then p.dropLast else p

/-- Rust `str::lines` on a character list: lines are split at `\n` or
`\r\n`; a final line terminator does not produce a trailing empty line, and
a final unterminated segment keeps any trailing `\r`. -/
def rustLinesList (cs : List Char) : List (List Char) :=
  let parts := splitNl cs
  let terminated := parts.dropLast.map stripCr
  match parts.getLast? with
  | some [] => terminated
  | some last => terminated ++ [last]
  | none => terminated

/-- Rust `str::lines`, as used by `request.text.lines().collect()`. -/
def rustLines (s : String) : List String :=
  (rustLinesList s.toList).map List.asString

/-- Rust `char::is_whitespace`: the Unicode `White_Space` property. -/
def rust_is_whitespace (c : Char) : Bool :=
  [0x09, 0x0A, 0x0B, 0x0C, 0x0D, 0x20, 0x85, 0xA0, 0x1680,
   0x2000, 0x2001, 0x2002, 0x2003, 0x2004, 0x2005, 0x2006, 0x2007,
   0x2008, 0x2009, 0x200A, 0x2028, 0x2029, 0x202F, 0x205F, 0x3000].contains
    c.val.toNat

/-- `fn escape_xml_char` of lib.rs. -/
def escape_xml_char (ch : Char) : String :=
  if ch = '"' then "&quot;"
  else if ch = '&' then "&amp;"
  else if ch = '<' then "&lt;"
  else if ch = '>' then "&gt;"
  else ch.toString

/-- `struct PathBuilder` of lib.rs (horizontal writing): accumulated path
data plus the transform parameters `scale`, `offset_x` (the cursor x) and
`offset_y` (the baseline y). -/
structure PathBuilder where
  path_data : List PathCmd
  scale : ℚ
  offset_x : ℚ
  offset_y : ℚ
deriving DecidableEq, Repr

/-- `PathBuilder::new`. -/
def PathBuilder.new (scale offset_x offset_y : ℚ) : PathBuilder :=
  ⟨[], scale, offset_x, offset_y⟩

/-- `PathBuilder::transform_x`. -/
def PathBuilder.transform_x (b : PathBuilder) (x : ℚ) : ℚ :=
  x * b.scale + b.offset_x

/-- `PathBuilder::transform_y`: the font's Y-up axis is flipped to SVG's
Y-down axis around the baseline. -/
def PathBuilder.transform_y (b : PathBuilder) (y : ℚ) : ℚ :=
  b.offset_y - y * b.scale

/-- One `OutlineBuilder` callback on a `PathBuilder`: transforms the raw
coordinates, rounds them as the `{:.2}` format does, and appends the
command to the path data. -/
def PathBuilder.runCmd (b : PathBuilder) (c : OutlineCmd) : PathBuilder :=
  match c with
  | OutlineCmd.moveTo x y =>
      { b with path_data := b.path_data ++
          [PathCmd.moveTo (round2 (b.transform_x x)) (round2 (b.transform_y y))] }
  | OutlineCmd.lineTo x y =>
      { b with path_data := b.path_data ++
          [PathCmd.lineTo (round2 (b.transform_x x)) (round2 (b.transform_y y))] }
  | OutlineCmd.quadTo x1 y1 x y =>
      { b with path_data := b.path_data ++
          [PathCmd.quadTo (round2 (b.transform_x x1)) (round2 (b.transform_y y1))
            (round2 (b.transform_x x)) (round2 (b.transform_y y))] }
  | OutlineCmd.curveTo x1 y1 x2 y2 x y =>
      { b with path_data := b.path_data ++
          [PathCmd.curveTo (round2 (b.transform_x x1)) (round2 (b.transform_y y1))
            (round2 (b.transform_x x2)) (round2 (b.transform_y y2))
            (round2 (b.transform_x x)) (round2 (b.transform_y y))] }
  | OutlineCmd.close =>
      { b with path_data := b.path_data ++ [PathCmd.close] }

/-- `face.outline_glyph(glyph_id, &mut builder)`: the face feeds every
outline segment to the builder in order. -/
def PathBuilder.outline (b : PathBuilder) (cmds : List OutlineCmd) : PathBuilder :=
  cmds.foldl PathBuilder.runCmd b

/-- `struct VerticalPathBuilder` of lib.rs. -/
structure VerticalPathBuilder where
  path_data : List PathCmd
  scale : ℚ
  col_center_x : ℚ
  glyph_top_y : ℚ
  glyph_hor_advance : ℚ
deriving DecidableEq, Repr

/-- `VerticalPathBuilder::new`. -/
def VerticalPathBuilder.new (scale col_center_x glyph_top_y glyph_hor_advance : ℚ) :
    VerticalPathBuilder :=
  ⟨[], scale, col_center_x, glyph_top_y, glyph_hor_advance⟩

/-- `VerticalPathBuilder::transform_x`: the glyph is centered horizontally in
its column using its own horizontal advance. -/
def VerticalPathBuilder.transform_x (b : VerticalPathBuilder) (x : ℚ) : ℚ :=
  b.col_center_x + (x * b.scale - b.glyph_hor_advance / 2)

/-- `VerticalPathBuilder::transform_y`. -/
def VerticalPathBuilder.transform_y (b : VerticalPathBuilder) (y : ℚ) : ℚ :=
  b.glyph_top_y - y * b.scale

/-- One `OutlineBuilder` callback on a `VerticalPathBuilder`. -/
def VerticalPathBuilder.runCmd (b : VerticalPathBuilder) (c : OutlineCmd) :
    VerticalPathBuilder :=
  match c with
  | OutlineCmd.moveTo x y =>
      { b with path_data := b.path_data ++
          [PathCmd.moveTo (round2 (b.transform_x x)) (round2 (b.transform_y y))] }
  | OutlineCmd.lineTo x y =>
      { b with path_data := b.path_data ++
          [PathCmd.lineTo (round2 (b.transform_x x)) (round2 (b.transform_y y))] }
  | OutlineCmd.quadTo x1 y1 x y =>
      { b with path_data := b.path_data ++
          [PathCmd.quadTo (round2 (b.transform_x x1)) (round2 (b.transform_y y1))
            (round2 (b.transform_x x)) (round2 (b.transform_y y))] }
  | OutlineCmd.curveTo x1 y1 x2 y2 x y =>
      { b with path_data := b.path_data ++
          [PathCmd.curveTo (round2 (b.transform_x x1)) (round2 (b.transform_y y1))
            (round2 (b.transform_x x2)) (round2 (b.transform_y y2))
            (round2 (b.transform_x x)) (round2 (b.transform_y y))] }
  | OutlineCmd.close =>
      { b with path_data := b.path_data ++ [PathCmd.close] }

/-- `face.outline_glyph` walking into a `VerticalPathBuilder`. -/
def VerticalPathBuilder.outline (b : VerticalPathBuilder) (cmds : List OutlineCmd) :
    VerticalPathBuilder :=
  cmds.foldl VerticalPathBuilder.runCmd b

/-- The path elements emitted for one visible glyph, per export mode
(lib.rs lines 251-271 and the identical vertical block): `path_only` gives
one unstyled path; otherwise, when `include_stroke` and some layer is
enabled, one stroke-styled copy per enabled layer (the list arrives already
reversed from `generate_svg`), each with `fill` and `stroke` set to the
layer color and `stroke-width` set to twice the declared width, followed by
one fill-styled copy. -/
def glyphPaths (is_path_only include_stroke : Bool)
    (enabled_stroke_layers : List StrokeLayer) (text_color : String)
    (d : List PathCmd) : List SvgPathElem :=
  if is_path_only then [SvgPathElem.plain d]
  else
    (if include_stroke && !enabled_stroke_layers.isEmpty then
      enabled_stroke_layers.map
        (fun l => SvgPathElem.stroked d l.color l.color (l.width * 2))
    else []) ++ [SvgPathElem.filled d text_color]

/-- The `if !path_data.is_empty() { ...push group... }` block shared by both
generators: a glyph whose walked outline is empty emits nothing. -/
def emitGroup (is_path_only include_stroke : Bool)
    (enabled_stroke_layers : List StrokeLayer) (text_color : String)
    (groups : List GlyphGroup) (char_index : ℕ) (ch : Char)
    (d : List PathCmd) : List GlyphGroup :=
  if d.isEmpty then groups
  else groups ++ [⟨char_index, escape_xml_char ch, glyphPaths is_path_only
    include_stroke enabled_stroke_layers text_color d⟩]

/-- Width of one line in `generate_horizontal_svg` (lib.rs lines 185-198):
the sum of the scaled horizontal advances of the characters that have both a
glyph and an advance entry. -/
def lineWidth (face : Face) (scale : ℚ) (line : String) : ℚ :=
  line.toList.foldl (fun w ch =>
    match face.glyph_index ch with
    | some gid =>
        match face.glyph_hor_advance gid with
        | some adv => w + (adv : ℚ) * scale
        | none => w
    | none => w) 0

/-- `start_x` of a line: `(svg_width - line_width) / 2.0` (lib.rs line 220). -/
def hor_start_x (svg_width line_width : ℚ) : ℚ := (svg_width - line_width) / 2

/-- `baseline_y` of line `i`: `padding + (i+1) * line_height` (lib.rs line 221). -/
def hor_baseline_y (padding line_height : ℚ) (line_index : ℕ) : ℚ :=
  padding + ((line_index : ℚ) + 1) * line_height

/-- The cursor advance shared by the three horizontal sites
(`if let Some(advance) = face.glyph_hor_advance(glyph_id) { cursor += ... }`):
the cursor moves by the scaled advance when the table has an entry and is
left unchanged otherwise. -/
def horAdvanceCursor (face : Face) (scale cursor : ℚ) (gid : ℕ) : ℚ :=
  match face.glyph_hor_advance gid with
  | some adv => cursor + (adv : ℚ) * scale
  | none => cursor

/-- The per-character body of the horizontal layout loop (lib.rs lines
225-282), threading `(cursor_x, char_index, groups)`: whitespace advances the
cursor (when the face has an advance) and the character index only; a mapped
visible character walks its outline from the cursor/baseline transform,
emits a group when the outline is non-empty, then advances the cursor. -/
def processHorChar (face : Face) (request : SvgExportRequest) (scale : ℚ)
    (is_path_only include_stroke : Bool) (enabled_stroke_layers : List StrokeLayer)
    (baseline_y : ℚ) (st : ℚ × ℕ × List GlyphGroup) (ch : Char) :
    ℚ × ℕ × List GlyphGroup :=
  if rust_is_whitespace ch then
    match face.glyph_index ch with
    | some gid => (horAdvanceCursor face scale st.1 gid, st.2.1 + 1, st.2.2)
    | none => (st.1, st.2.1 + 1, st.2.2)
  else
    match face.glyph_index ch with
    | none => (st.1, st.2.1 + 1, st.2.2)
    | some gid =>
        (horAdvanceCursor face scale st.1 gid, st.2.1 + 1,
         emitGroup is_path_only include_stroke enabled_stroke_layers
           request.text_color st.2.2 st.2.1 ch
           (PathBuilder.outline (PathBuilder.new scale st.1 baseline_y)
             (face.outline_glyph gid)).path_data)

/-- One iteration of the horizontal per-line loop (lib.rs lines 214-283),
threading `(char_index, groups)`: an empty line is skipped; otherwise the
line's characters run from its centered `start_x` on its baseline. -/
def horLineStep (face : Face) (request : SvgExportRequest) (scale : ℚ)
    (is_path_only include_stroke : Bool) (enabled_stroke_layers : List StrokeLayer)
    (svg_width padding line_height : ℚ) (line_widths : List ℚ)
    (st : ℕ × List GlyphGroup) (p : ℕ × String) : ℕ × List GlyphGroup :=
  if p.2 = "" then st
  else
    (p.2.toList.foldl (processHorChar face request scale is_path_only
        include_stroke enabled_stroke_layers (hor_baseline_y padding line_height p.1))
      (hor_start_x svg_width (line_widths.getD p.1 0), st)).2

/-- `fn generate_horizontal_svg` of lib.rs: measures every line, sizes the
canvas (`padding = 20`), then lays the lines out left-to-right, each centered
independently, skipping empty lines. -/
def generate_horizontal_svg (face : Face) (request : SvgExportRequest) (scale : ℚ)
    (is_path_only include_stroke : Bool)
    (enabled_stroke_layers : List StrokeLayer) : SvgDoc :=
  let lines := rustLines request.text
  let line_height := request.font_size * 1.2
  let line_widths := lines.map (lineWidth face scale)
  let max_width := line_widths.foldl (fun m w => if w > m then w else m) 0
  let padding : ℚ := 20
  let svg_width := max_width + padding * 2
  let total_height := (lines.length : ℚ) * line_height
  let svg_height := total_height + padding * 2
  ⟨svg_width, svg_height,
   (lines.enum.foldl (horLineStep face request scale is_path_only include_stroke
      enabled_stroke_layers svg_width padding line_height line_widths)
     ((0 : ℕ), ([] : List GlyphGroup))).2⟩

/-- The per-glyph record collected by `generate_vertical_svg`
(`struct GlyphInfo` in lib.rs), all quantities already scaled. -/
structure GlyphInfo where
  glyph_id : ℕ
  y_advance : ℚ
  ch : Char
  glyph_hor_advance : ℚ
  glyph_height : ℚ
  glyph_y_origin : ℚ
deriving DecidableEq, Repr

/-- Builds the `GlyphInfo` for the `i`-th shaped glyph of a line
(lib.rs lines 409-459).  The `u32` shaped glyph id is truncated to `u16`;
the character is the `i`-th source character, `'?'` when the shaped output
is longer than the character list. -/
def mkGlyphInfo (face : Face) (request : SvgExportRequest) (scale : ℚ)
    (chars : List Char) (i : ℕ) (sg : ShapedGlyph) : GlyphInfo :=
  let glyph_id := sg.glyph_id % 65536
  let ch := chars.getD i '?'
  let y_advance :=
    if sg.y_advance ≠ 0 then -(sg.y_advance : ℚ) * scale
    else
      match face.glyph_ver_advance glyph_id with
      | some adv => (adv : ℚ) * scale
      | none => request.font_size
  let glyph_hor_advance :=
    match face.glyph_hor_advance glyph_id with
    | some adv => (adv : ℚ) * scale
    | none => request.font_size
  let glyph_y_origin :=
    match face.glyph_y_origin glyph_id with
    | some y_origin => (y_origin : ℚ) * scale
    | none =>
        match face.glyph_bounding_box glyph_id with
        | some bbox =>
            ((bbox.y_max + (face.glyph_ver_side_bearing glyph_id).getD 0 : ℤ) : ℚ) * scale
        | none => (face.ascender : ℚ) * scale
  let glyph_height :=
    match face.glyph_bounding_box glyph_id with
    | some bbox => ((bbox.y_max - bbox.y_min : ℤ) : ℚ) * scale
    | none => request.font_size
  ⟨glyph_id, y_advance, ch, glyph_hor_advance, glyph_height, glyph_y_origin⟩

/-- The glyph infos of one shaped column (lib.rs lines 395-462): one record
per shaped glyph, positionally paired with the source characters. -/
def verticalGlyphInfos (face : Face) (shaper : String → List ShapedGlyph)
    (request : SvgExportRequest) (scale : ℚ) (line : String) : List GlyphInfo :=
  (shaper line).enum.map (fun p => mkGlyphInfo face request scale line.toList p.1 p.2)

/-- The running `height` accumulated over a column's glyphs
(lib.rs line 461): the sum of the resolved vertical advances. -/
def columnHeight (c : List GlyphInfo) : ℚ :=
  c.foldl (fun h gi => h + gi.y_advance) 0

/-- `col_center_x` of column `i` (lib.rs line 491): columns run right-to-left,
column 0 rightmost. -/
def vertical_col_center_x (svg_width padding line_height : ℚ) (col_index : ℕ) : ℚ :=
  svg_width - padding - ((col_index : ℚ) + 0.5) * line_height

/-- `glyph_top_y` (lib.rs line 507): the running column cursor plus the
glyph's resolved vertical origin. -/
def glyphTopY (cursor_y glyph_y_origin : ℚ) : ℚ := cursor_y + glyph_y_origin

/-- The per-glyph body of the vertical column loop (lib.rs lines 497-556),
threading `(cursor_y, char_index, groups)`: a whitespace glyph advances the
cursor and character index only; otherwise the glyph's outline is walked
with its top at `glyphTopY cursor_y glyph_y_origin`, a group is emitted when
the outline is non-empty, and the cursor advances by the resolved vertical
advance. -/
def processVerticalGlyph (face : Face) (request : SvgExportRequest) (scale : ℚ)
    (is_path_only include_stroke : Bool) (enabled_stroke_layers : List StrokeLayer)
    (col_center_x : ℚ) (st : ℚ × ℕ × List GlyphGroup) (gi : GlyphInfo) :
    ℚ × ℕ × List GlyphGroup :=
  if rust_is_whitespace gi.ch then
    (st.1 + gi.y_advance, st.2.1 + 1, st.2.2)
  else
    (st.1 + gi.y_advance, st.2.1 + 1,
     emitGroup is_path_only include_stroke enabled_stroke_layers
       request.text_color st.2.2 st.2.1 gi.ch
       (VerticalPathBuilder.outline
         (VerticalPathBuilder.new scale col_center_x
           (glyphTopY st.1 gi.glyph_y_origin) gi.glyph_hor_advance)
         (face.outline_glyph gi.glyph_id)).path_data)

/-- One iteration of the vertical per-column loop (lib.rs lines 485-557),
threading `(char_index, groups)`: an empty column is skipped; otherwise the
column's glyphs run from `cursor_y = padding` at the column's center x. -/
def vertLineStep (face : Face) (request : SvgExportRequest) (scale : ℚ)
    (is_path_only include_stroke : Bool) (enabled_stroke_layers : List StrokeLayer)
    (svg_width padding line_height : ℚ)
    (st : ℕ × List GlyphGroup) (p : ℕ × List GlyphInfo) : ℕ × List GlyphGroup :=
  if p.2.isEmpty then st
  else
    (p.2.foldl (processVerticalGlyph face request scale is_path_only
        include_stroke enabled_stroke_layers
        (vertical_col_center_x svg_width padding line_height p.1))
      (padding, st)).2

/-- `fn generate_vertical_svg` of lib.rs: shapes every line top-to-bottom,
collects per-glyph metrics, sizes the canvas
(`padding = font_size * 0.5 + 20`), then renders the columns right-to-left,
each cursor starting at `padding`. -/
def generate_vertical_svg (face : Face) (shaper : String → List ShapedGlyph)
    (request : SvgExportRequest) (scale : ℚ)
    (is_path_only include_stroke : Bool)
    (enabled_stroke_layers : List StrokeLayer) : SvgDoc :=
  let lines := rustLines request.text
  let line_height := request.font_size * 1.2
  let column_infos := lines.map (verticalGlyphInfos face shaper request scale)
  let max_height := (column_infos.map columnHeight).foldl
    (fun m h => if h > m then h else m) 0
  let padding := request.font_size * 0.5 + 20
  let svg_width := (lines.length : ℚ) * line_height + padding * 2
  let svg_height := max_height + padding * 2
  ⟨svg_width, svg_height,
   (column_infos.enum.foldl (vertLineStep face request scale is_path_only
      include_stroke enabled_stroke_layers svg_width padding line_height)
     ((0 : ℕ), ([] : List GlyphGroup))).2⟩

/-- `fn generate_svg` of lib.rs, after the font has been resolved and parsed
(the I/O steps are out of the embedded core): computes the scale, decodes
the export mode (any string other than the two recognized ones behaves like
"fill"), filters and reverses the enabled stroke layers, and dispatches on
the writing direction. -/
def generate_svg (face : Face) (shaper : String → List ShapedGlyph)
    (request : SvgExportRequest) : SvgDoc :=
  let units_per_em : ℚ := (face.units_per_em : ℚ)
  let scale := request.font_size / units_per_em
  let is_path_only := request.export_mode == "path_only"
  let include_stroke := request.export_mode == "fill_and_stroke"
  let enabled_stroke_layers :=
    (request.stroke_layers.filter (fun l => l.enabled)).reverse
  if request.vertical then
    generate_vertical_svg face shaper request scale is_path_only include_stroke
      enabled_stroke_layers
  else
    generate_horizontal_svg face request scale is_path_only include_stroke
      enabled_stroke_layers

/-! ### Specification-side definitions

The following definitions are written from the specification's words, to be
compared against the embedded code above. -/

/-- Spec wording (§4.3 item 1): "Horizontal advance: font horizontal-advance
table; if absent, value is treated as zero", scaled by `scale`. -/
def spec_hor_advance (face : Face) (scale : ℚ) (ch : Char) : ℚ :=
  match face.glyph_index ch with
  | some gid =>
      match face.glyph_hor_advance gid with
      | some adv => (adv : ℚ) * scale
      | none => 0
  | none => 0

/-- Spec wording (§4.3 item 2): vertical advance is (a) the shaping-reported
advance if non-zero, negated and scaled; else (b) the font's native
vertical-advance table entry, scaled; else (c) the requested font size. -/
def spec_vertical_advance (reported : ℤ) (table : Option ℕ)
    (scale font_size : ℚ) : ℚ :=
  if reported ≠ 0 then -(reported : ℚ) * scale
  else
    match table with
    | some adv => (adv : ℚ) * scale
    | none => font_size

/-- Spec wording (§4.3 item 3): vertical origin is (a) the explicit
vertical-origin (VORG) table value if present; else (b) the bounding-box top
edge plus the vertical top-side-bearing (0 if absent); else (c) the
ascender — each scaled. -/
def spec_vertical_origin (vorg : Option ℤ) (bbox : Option BBox)
    (tsb : Option ℤ) (ascender : ℤ) (scale : ℚ) : ℚ :=
  match vorg with
  | some v => (v : ℚ) * scale
  | none =>
      match bbox with
      | some b => ((b.y_max + tsb.getD 0 : ℤ) : ℚ) * scale
      | none => (ascender : ℚ) * scale

/-- Spec wording (§4.3, vertical engine): the per-glyph horizontal advance
used for column centering, falling back to the requested font size. -/
def spec_vertical_hor_advance (face : Face) (scale font_size : ℚ) (gid : ℕ) : ℚ :=
  match face.glyph_hor_advance gid with
  | some adv => (adv : ℚ) * scale
  | none => font_size

/-- Spec wording (§4.4): "canvas width = max line width + 2×fixed-padding":
the maximum of the per-line sums of scaled horizontal advances (0 when there
is no line). -/
def maxLineWidth (face : Face) (scale : ℚ) (text : String) : ℚ :=
  ((rustLines text).map
    (fun l => (l.toList.map (spec_hor_advance face scale)).sum)).foldl max 0

/-- Spec wording (§4.5): "Canvas height = max cumulative column extent":
the maximum over columns of the cumulative sum of resolved vertical advances
(0 when there is no column). -/
def spec_max_column_extent (face : Face) (shaper : String → List ShapedGlyph)
    (request : SvgExportRequest) (scale : ℚ) : ℚ :=
  ((rustLines request.text).map
    (fun line => ((verticalGlyphInfos face shaper request scale line).map
      (fun gi => gi.y_advance)).sum)).foldl max 0

/-- A rational representable with two fractional decimal digits. -/
def hasTwoDecimalDigits (q : ℚ) : Prop := ∃ n : ℤ, q = (n : ℚ) / 100

/-- The glyph groups a generator can emit: a character index, an escaped
character, and the styled copies of one non-empty path datum. -/
def isStyledGroup (is_path_only include_stroke : Bool)
    (enabled_stroke_layers : List StrokeLayer) (text_color : String)
    (g : GlyphGroup) : Prop :=
  ∃ ci ech d, d ≠ [] ∧
    g = ⟨ci, ech, glyphPaths is_path_only include_stroke enabled_stroke_layers
      text_color d⟩

/-! ### Concrete fixtures

A small face, shaper and requests used to instantiate the claims on
concrete inputs. -/

/-- A minimal concrete face: glyph 1 is a visible triangle mapped from `A`,
glyph 2 a blank mapped from the space character. -/
def testFace : Face where
  units_per_em := 1000
  glyph_index := fun ch => if ch = 'A' then some 1 else if ch = ' ' then some 2 else none
  glyph_hor_advance := fun g => if g = 1 then some 600 else if g = 2 then some 250 else none
  glyph_ver_advance := fun g => if g = 1 then some 1000 else none
  glyph_y_origin := fun _ => none
  glyph_ver_side_bearing := fun _ => some 50
  glyph_bounding_box := fun g => if g = 1 then some ⟨0, 700⟩ else none
  ascender := 800
  outline_glyph := fun g =>
    if g = 1 then [OutlineCmd.moveTo 0 0, OutlineCmd.lineTo 500 0,
      OutlineCmd.lineTo 250 700, OutlineCmd.close] else []

/-- `testFace` with an empty horizontal-advance table, to exercise the
absent-entry fallbacks. -/
def noAdvFace : Face :=
  { testFace with glyph_hor_advance := fun _ => none }

/-- A concrete shaping oracle: one glyph per character, glyph 1 with raw
advance `-1000` for `A`, glyph 2 with `-500` otherwise. -/
def testShaper : String → List ShapedGlyph := fun line =>
  line.toList.map (fun ch => if ch = 'A' then ⟨1, -1000⟩ else ⟨2, -500⟩)

/-- A concrete request: one `A`, two stroke layers of which one is enabled,
`fill_and_stroke`, horizontal. -/
def reqFS : SvgExportRequest where
  font_name := "Test"
  text := "A"
  font_size := 100
  text_color := "red"
  stroke_layers := [⟨true, 3, "blue"⟩, ⟨false, 1, "green"⟩]
  export_mode := "fill_and_stroke"
  vertical := false

/-- `reqFS` with an unrecognized export mode. -/
def reqFoo : SvgExportRequest := { reqFS with export_mode := "foo" }

/-- `reqFS` with empty text. -/
def reqEmpty : SvgExportRequest := { reqFS with text := "" }

/-- A two-line vertical request. -/
def reqVert : SvgExportRequest :=
  { reqFS with text := "A\nA", vertical := true, export_mode := "fill" }

/-- `reqFS` switched to vertical writing. -/
def reqVertFS : SvgExportRequest := { reqFS with vertical := true }

/-- The transformed path datum of `testFace`'s glyph 1 under `reqFS`:
scale `1/10`, cursor `20`, baseline `140`. -/
def testPathData : List PathCmd :=
  [PathCmd.moveTo 20 140, PathCmd.lineTo 70 140, PathCmd.lineTo 45 70,
   PathCmd.close]

/-- The glyph group `generate_svg testFace testShaper reqFS` emits. -/
def testGroupFS : GlyphGroup :=
  ⟨0, "A", [SvgPathElem.stroked testPathData "blue" "blue" 6,
            SvgPathElem.filled testPathData "red"]⟩

/-! ### Helper lemmas -/

theorem map_enumFrom_eq {α β : Type _} (f : ℕ × α → β) (g : α → β)
    (h : ∀ i a, f (i, a) = g a) :
    ∀ (n : ℕ) (l : List α), (l.enumFrom n).map f = l.map g := by
  intro n l
  induction l generalizing n with
  | nil => rfl
  | cons a t ih => simp [List.enumFrom, h, ih]

theorem map_enum_eq {α β : Type _} (f : ℕ × α → β) (g : α → β)
    (h : ∀ i a, f (i, a) = g a) (l : List α) : l.enum.map f = l.map g :=
  map_enumFrom_eq f g h 0 l

theorem foldl_add_eq {α : Type _} (f : α → ℚ) :
    ∀ (l : List α) (a : ℚ), l.foldl (fun w ch => w + f ch) a = a + (l.map f).sum := by
  intro l
  induction l with
  | nil => intro a; simp
  | cons x t ih => intro a; simp [ih, add_assoc]

theorem foldl_max_eq (l : List ℚ) (a : ℚ) :
    l.foldl (fun m w => if w > m then w else m) a = l.foldl max a := by
  have h : (fun (m w : ℚ) => if w > m then w else m) = max := by
    funext m w
    rcases le_or_lt w m with h1 | h1
    · rw [if_neg (not_lt.2 h1), max_eq_left h1]
    · rw [if_pos h1, max_eq_right h1.le]
  rw [h]

theorem lineWidth_eq (face : Face) (scale : ℚ) (line : String) :
    lineWidth face scale line = (line.toList.map (spec_hor_advance face scale)).sum := by
  have hbody : (fun (w : ℚ) ch =>
      match face.glyph_index ch with
      | some gid =>
          match face.glyph_hor_advance gid with
          | some adv => w + (adv : ℚ) * scale
          | none => w
      | none => w) = fun (w : ℚ) ch => w + spec_hor_advance face scale ch := by
    funext w ch
    unfold spec_hor_advance
    cases hgi : face.glyph_index ch with
    | none => simp [hgi]
    | some gid =>
        cases hadv : face.glyph_hor_advance gid with
        | none => simp [hgi, hadv]
        | some adv => simp [hgi, hadv]
  unfold lineWidth
  rw [hbody, foldl_add_eq, zero_add]

theorem columnHeight_eq (c : List GlyphInfo) :
    columnHeight c = (c.map (fun gi => gi.y_advance)).sum := by
  unfold columnHeight
  rw [foldl_add_eq, zero_add]

theorem emitGroup_mem {is_path_only include_stroke : Bool}
    {layers : List StrokeLayer} {tc : String} {groups : List GlyphGroup}
    {ci : ℕ} {ch : Char} {d : List PathCmd} {g : GlyphGroup}
    (hg : g ∈ emitGroup is_path_only include_stroke layers tc groups ci ch d) :
    g ∈ groups ∨ isStyledGroup is_path_only include_stroke layers tc g := by
  unfold emitGroup at hg
  split at hg
  · exact Or.inl hg
  · rcases List.mem_append.1 hg with h | h
    · exact Or.inl h
    · right
      have hge := List.mem_singleton.1 h
      subst hge
      rename_i hne
      exact ⟨ci, escape_xml_char ch, d, by simpa using hne, rfl⟩

theorem processHorChar_mem (face : Face) (request : SvgExportRequest) (scale : ℚ)
    (ipo istr : Bool) (layers : List StrokeLayer) (b : ℚ)
    (st : ℚ × ℕ × List GlyphGroup) (ch : Char) {g : GlyphGroup}
    (hg : g ∈ (processHorChar face request scale ipo istr layers b st ch).2.2) :
    g ∈ st.2.2 ∨ isStyledGroup ipo istr layers request.text_color g := by
  unfold processHorChar at hg
  split at hg <;> split at hg <;>
    first
      | exact Or.inl hg
      | exact emitGroup_mem hg

theorem foldl_processHorChar_mem (face : Face) (request : SvgExportRequest)
    (scale : ℚ) (ipo istr : Bool) (layers : List StrokeLayer) (b : ℚ) :
    ∀ (l : List Char) (st : ℚ × ℕ × List GlyphGroup) (g : GlyphGroup),
      g ∈ (l.foldl (processHorChar face request scale ipo istr layers b) st).2.2 →
      g ∈ st.2.2 ∨ isStyledGroup ipo istr layers request.text_color g := by
  intro l
  induction l with
  | nil => intro st g hg; exact Or.inl hg
  | cons c t ih =>
      intro st g hg
      rcases ih _ g hg with h | h
      · exact processHorChar_mem face request scale ipo istr layers b st c h
      · exact Or.inr h

theorem horLineStep_mem (face : Face) (request : SvgExportRequest) (scale : ℚ)
    (ipo istr : Bool) (layers : List StrokeLayer) (W pad lh : ℚ) (lws : List ℚ)
    (st : ℕ × List GlyphGroup) (p : ℕ × String) {g : GlyphGroup}
    (hg : g ∈ (horLineStep face request scale ipo istr layers W pad lh lws st p).2) :
    g ∈ st.2 ∨ isStyledGroup ipo istr layers request.text_color g := by
  unfold horLineStep at hg
  split at hg
  · exact Or.inl hg
  · exact foldl_processHorChar_mem face request scale ipo istr layers _ _ _ g hg

theorem foldl_horLineStep_mem (face : Face) (request : SvgExportRequest)
    (scale : ℚ) (ipo istr : Bool) (layers : List StrokeLayer)
    (W pad lh : ℚ) (lws : List ℚ) :
    ∀ (l : List (ℕ × String)) (st : ℕ × List GlyphGroup) (g : GlyphGroup),
      g ∈ (l.foldl (horLineStep face request scale ipo istr layers W pad lh lws) st).2 →
      g ∈ st.2 ∨ isStyledGroup ipo istr layers request.text_color g := by
  intro l
  induction l with
  | nil => intro st g hg; exact Or.inl hg
  | cons c t ih =>
      intro st g hg
      rcases ih _ g hg with h | h
      · exact horLineStep_mem face request scale ipo istr layers W pad lh lws st c h
      · exact Or.inr h

theorem generate_horizontal_svg_mem (face : Face) (request : SvgExportRequest)
    (scale : ℚ) (ipo istr : Bool) (layers : List StrokeLayer) {g : GlyphGroup}
    (hg : g ∈ (generate_horizontal_svg face request scale ipo istr layers).groups) :
    isStyledGroup ipo istr layers request.text_color g := by
  simp only [generate_horizontal_svg] at hg
  rcases foldl_horLineStep_mem face request scale ipo istr layers _ _ _ _ _ _ g hg
    with h | h
  · exact absurd h (List.not_mem_nil g)
  · exact h

theorem processVerticalGlyph_mem (face : Face) (request : SvgExportRequest)
    (scale : ℚ) (ipo istr : Bool) (layers : List StrokeLayer) (cx : ℚ)
    (st : ℚ × ℕ × List GlyphGroup) (gi : GlyphInfo) {g : GlyphGroup}
    (hg : g ∈ (processVerticalGlyph face request scale ipo istr layers cx st gi).2.2) :
    g ∈ st.2.2 ∨ isStyledGroup ipo istr layers request.text_color g := by
  unfold processVerticalGlyph at hg
  split at hg
  · exact Or.inl hg
  · exact emitGroup_mem hg

theorem foldl_processVerticalGlyph_mem (face : Face) (request : SvgExportRequest)
    (scale : ℚ) (ipo istr : Bool) (layers : List StrokeLayer) (cx : ℚ) :
    ∀ (l : List GlyphInfo) (st : ℚ × ℕ × List GlyphGroup) (g : GlyphGroup),
      g ∈ (l.foldl (processVerticalGlyph face request scale ipo istr layers cx) st).2.2 →
      g ∈ st.2.2 ∨ isStyledGroup ipo istr layers request.text_color g := by
  intro l
  induction l with
  | nil => intro st g hg; exact Or.inl hg
  | cons c t ih =>
      intro st g hg
      rcases ih _ g hg with h | h
      · exact processVerticalGlyph_mem face request scale ipo istr layers cx st c h
      · exact Or.inr h

theorem vertLineStep_mem (face : Face) (request : SvgExportRequest) (scale : ℚ)
    (ipo istr : Bool) (layers : List StrokeLayer) (W pad lh : ℚ)
    (st : ℕ × List GlyphGroup) (p : ℕ × List GlyphInfo) {g : GlyphGroup}
    (hg : g ∈ (vertLineStep face request scale ipo istr layers W pad lh st p).2) :
    g ∈ st.2 ∨ isStyledGroup ipo istr layers request.text_color g := by
  unfold vertLineStep at hg
  split at hg
  · exact Or.inl hg
  · exact foldl_processVerticalGlyph_mem face request scale ipo istr layers _ _ _ g hg

theorem foldl_vertLineStep_mem (face : Face) (request : SvgExportRequest)
    (scale : ℚ) (ipo istr : Bool) (layers : List StrokeLayer) (W pad lh : ℚ) :
    ∀ (l : List (ℕ × List GlyphInfo)) (st : ℕ × List GlyphGroup) (g : GlyphGroup),
      g ∈ (l.foldl (vertLineStep face request scale ipo istr layers W pad lh) st).2 →
      g ∈ st.2 ∨ isStyledGroup ipo istr layers request.text_color g := by
  intro l
  induction l with
  | nil => intro st g hg; exact Or.inl hg
  | cons c t ih =>
      intro st g hg
      rcases ih _ g hg with h | h
      · exact vertLineStep_mem face request scale ipo istr layers W pad lh st c h
      · exact Or.inr h

theorem generate_vertical_svg_mem (face : Face) (shaper : String → List ShapedGlyph)
    (request : SvgExportRequest) (scale : ℚ) (ipo istr : Bool)
    (layers : List StrokeLayer) {g : GlyphGroup}
    (hg : g ∈ (generate_vertical_svg face shaper request scale ipo istr layers).groups) :
    isStyledGroup ipo istr layers request.text_color g := by
  simp only [generate_vertical_svg] at hg
  rcases foldl_vertLineStep_mem face request scale ipo istr layers _ _ _ _ _ g hg
    with h | h
  · exact absurd h (List.not_mem_nil g)
  · exact h

theorem generate_svg_mem (face : Face) (shaper : String → List ShapedGlyph)
    (request : SvgExportRequest) {g : GlyphGroup}
    (hg : g ∈ (generate_svg face shaper request).groups) :
    isStyledGroup (request.export_mode == "path_only")
      (request.export_mode == "fill_and_stroke")
      ((request.stroke_layers.filter (fun l => l.enabled)).reverse)
      request.text_color g := by
  simp only [generate_svg] at hg
  split at hg
  · exact generate_vertical_svg_mem _ _ _ _ _ _ _ hg
  · exact generate_horizontal_svg_mem _ _ _ _ _ _ hg

theorem generate_horizontal_svg_width (face : Face) (request : SvgExportRequest)
    (scale : ℚ) (ipo istr : Bool) (layers : List StrokeLayer) :
    (generate_horizontal_svg face request scale ipo istr layers).width
      = maxLineWidth face scale request.text + 2 * 20 := by
  simp only [generate_horizontal_svg]
  rw [foldl_max_eq]
  unfold maxLineWidth
  have hf : lineWidth face scale
      = fun l => ((l.toList.map (spec_hor_advance face scale)).sum) :=
    funext fun l => lineWidth_eq face scale l
  rw [hf]
  ring

theorem generate_vertical_svg_height (face : Face) (shaper : String → List ShapedGlyph)
    (request : SvgExportRequest) (scale : ℚ) (ipo istr : Bool)
    (layers : List StrokeLayer) :
    (generate_vertical_svg face shaper request scale ipo istr layers).height
      = spec_max_column_extent face shaper request scale
        + 2 * (request.font_size * 0.5 + 20) := by
  simp only [generate_vertical_svg]
  rw [foldl_max_eq]
  unfold spec_max_column_extent
  rw [List.map_map]
  have hf : columnHeight ∘ verticalGlyphInfos face shaper request scale
      = fun line => ((verticalGlyphInfos face shaper request scale line).map
          (fun gi => gi.y_advance)).sum := by
    funext line
    exact columnHeight_eq _
  rw [hf]
  ring

theorem generate_horizontal_svg_mode_irrel (face : Face) (fn tx tc : String)
    (fs : ℚ) (sl : List StrokeLayer) (em em2 : String) (v v2 : Bool) (scale : ℚ)
    (a b : Bool) (ls : List StrokeLayer) :
    generate_horizontal_svg face ⟨fn, tx, fs, tc, sl, em, v⟩ scale a b ls =
    generate_horizontal_svg face ⟨fn, tx, fs, tc, sl, em2, v2⟩ scale a b ls := rfl

theorem generate_vertical_svg_mode_irrel (face : Face)
    (shaper : String → List ShapedGlyph) (fn tx tc : String) (fs : ℚ)
    (sl : List StrokeLayer) (em em2 : String) (v v2 : Bool) (scale : ℚ)
    (a b : Bool) (ls : List StrokeLayer) :
    generate_vertical_svg face shaper ⟨fn, tx, fs, tc, sl, em, v⟩ scale a b ls =
    generate_vertical_svg face shaper ⟨fn, tx, fs, tc, sl, em2, v2⟩ scale a b ls := rfl

/-! ### The claims -/

/-- Claim C1, amended.  The claim stated that both layout engines treat a
missing horizontal-advance table entry as zero.  That is true of the
horizontal engine (the line-measuring pass and the cursor movement add the
scaled table value and add nothing when the entry is absent), but the
vertical engine's per-glyph horizontal advance falls back to the requested
font size, not to zero. -/
theorem C1_horizontal_advance_resolution (face : Face)
    (shaper : String → List ShapedGlyph) (request : SvgExportRequest) (scale : ℚ) :
    (∀ line : String,
      lineWidth face scale line
        = (line.toList.map (spec_hor_advance face scale)).sum) ∧
    (∀ (ipo istr : Bool) (layers : List StrokeLayer) (baseline : ℚ)
        (st : ℚ × ℕ × List GlyphGroup) (ch : Char),
      (processHorChar face request scale ipo istr layers baseline st ch).1
        = st.1 + spec_hor_advance face scale ch) ∧
    (∀ line : String,
      (verticalGlyphInfos face shaper request scale line).map
          (fun gi => gi.glyph_hor_advance)
        = (shaper line).map (fun sg =>
            spec_vertical_hor_advance face scale request.font_size
              (sg.glyph_id % 65536))) := by
  refine ⟨fun line => lineWidth_eq face scale line, ?_, ?_⟩
  · intro ipo istr layers baseline st ch
    unfold processHorChar
    split
    · cases hgi : face.glyph_index ch with
      | none => simp [spec_hor_advance, hgi]
      | some gid =>
          cases hadv : face.glyph_hor_advance gid with
          | none => simp [horAdvanceCursor, spec_hor_advance, hgi, hadv]
          | some adv => simp [horAdvanceCursor, spec_hor_advance, hgi, hadv]
    · cases hgi : face.glyph_index ch with
      | none => simp [spec_hor_advance, hgi]
      | some gid =>
          cases hadv : face.glyph_hor_advance gid with
          | none => simp [horAdvanceCursor, spec_hor_advance, hgi, hadv]
          | some adv => simp [horAdvanceCursor, spec_hor_advance, hgi, hadv]
  · intro line
    unfold verticalGlyphInfos
    rw [List.map_map]
    exact map_enum_eq _ _ (fun i a => rfl) (shaper line)

/-- Claim C2: for every emitted (visible) glyph group, `path_only` yields
exactly one unstyled path; `fill_and_stroke` with N enabled stroke layers
yields the N stroke-styled copies in reverse declaration order, each with
stroke width twice the declared width, followed by exactly one fill-styled
copy, N+1 paths in total; disabled layers are never emitted. -/
theorem C2_export_mode_path_layers (face : Face)
    (shaper : String → List ShapedGlyph) (request : SvgExportRequest)
    (g : GlyphGroup) (hg : g ∈ (generate_svg face shaper request).groups) :
    (request.export_mode = "path_only" →
      ∃ d, d ≠ [] ∧ g.paths = [SvgPathElem.plain d]) ∧
    (request.export_mode = "fill_and_stroke" →
      ∃ d, d ≠ [] ∧
        g.paths = ((request.stroke_layers.filter (fun l => l.enabled)).reverse.map
            (fun l => SvgPathElem.stroked d l.color l.color (l.width * 2)))
          ++ [SvgPathElem.filled d request.text_color] ∧
        g.paths.length
          = (request.stroke_layers.filter (fun l => l.enabled)).length + 1) := by
  obtain ⟨ci, ech, d, hd, hgEq⟩ := generate_svg_mem face shaper request hg
  subst hgEq
  constructor
  · intro hm
    refine ⟨d, hd, ?_⟩
    simp [glyphPaths, hm]
  · intro hm
    have hEq : glyphPaths (request.export_mode == "path_only")
        (request.export_mode == "fill_and_stroke")
        ((request.stroke_layers.filter (fun l => l.enabled)).reverse)
        request.text_color d
        = ((request.stroke_layers.filter (fun l => l.enabled)).reverse.map
            (fun l => SvgPathElem.stroked d l.color l.color (l.width * 2)))
          ++ [SvgPathElem.filled d request.text_color] := by
      by_cases hl : (request.stroke_layers.filter (fun l => l.enabled)).reverse = []
      · simp [glyphPaths, hm, hl]
      · simp [glyphPaths, hm, hl]
    refine ⟨d, hd, ?_, ?_⟩
    · exact hEq
    · show (glyphPaths _ _ _ _ d).length = _
      rw [hEq]
      simp

/-- Claim C3: the resolved vertical advance of every shaped glyph follows
the exact fallback order: negated scaled shaping advance when non-zero, else
the scaled vertical-advance table entry, else the requested font size. -/
theorem C3_vertical_advance_fallback (face : Face)
    (shaper : String → List ShapedGlyph) (request : SvgExportRequest)
    (scale : ℚ) (line : String) :
    (verticalGlyphInfos face shaper request scale line).map (fun gi => gi.y_advance)
      = (shaper line).map (fun sg =>
          spec_vertical_advance sg.y_advance
            (face.glyph_ver_advance (sg.glyph_id % 65536)) scale
            request.font_size) := by
  unfold verticalGlyphInfos
  rw [List.map_map]
  exact map_enum_eq _ _ (fun i a => rfl) (shaper line)

/-- Claim C4: the resolved vertical origin of every shaped glyph follows the
exact fallback order: scaled VORG table value, else scaled bounding-box top
plus vertical top-side-bearing (0 when absent), else the scaled ascender. -/
theorem C4_vertical_origin_fallback (face : Face)
    (shaper : String → List ShapedGlyph) (request : SvgExportRequest)
    (scale : ℚ) (line : String) :
    (verticalGlyphInfos face shaper request scale line).map
        (fun gi => gi.glyph_y_origin)
      = (shaper line).map (fun sg =>
          spec_vertical_origin (face.glyph_y_origin (sg.glyph_id % 65536))
            (face.glyph_bounding_box (sg.glyph_id % 65536))
            (face.glyph_ver_side_bearing (sg.glyph_id % 65536))
            face.ascender scale) := by
  unfold verticalGlyphInfos
  rw [List.map_map]
  exact map_enum_eq _ _ (fun i a => rfl) (shaper line)

/-- Claim C5: in vertical layout the canvas width is
`lineCount × (fontSize × 1.2) + 2 × padding` with
`padding = fontSize × 0.5 + 20`, the canvas height is the maximum cumulative
column extent plus `2 × padding`, column `i`'s center is
`canvasWidth − padding − (i + 0.5) × lineHeight`, and column 0 is strictly
to the right of column 1 when at least two lines exist. -/
theorem C5_vertical_canvas_layout (face : Face)
    (shaper : String → List ShapedGlyph) (request : SvgExportRequest)
    (scale : ℚ) (ipo istr : Bool) (layers : List StrokeLayer) :
    (generate_vertical_svg face shaper request scale ipo istr layers).width
      = ((rustLines request.text).length : ℚ) * (request.font_size * 1.2)
        + 2 * (request.font_size * 0.5 + 20) ∧
    (generate_vertical_svg face shaper request scale ipo istr layers).height
      = spec_max_column_extent face shaper request scale
        + 2 * (request.font_size * 0.5 + 20) ∧
    (∀ (w p lh : ℚ) (i : ℕ),
      vertical_col_center_x w p lh i = w - p - ((i : ℚ) + 0.5) * lh) ∧
    (2 ≤ (rustLines request.text).length → 0 < request.font_size →
      vertical_col_center_x
          ((generate_vertical_svg face shaper request scale ipo istr layers).width)
          (request.font_size * 0.5 + 20) (request.font_size * 1.2) 1
        < vertical_col_center_x
          ((generate_vertical_svg face shaper request scale ipo istr layers).width)
          (request.font_size * 0.5 + 20) (request.font_size * 1.2) 0) := by
  refine ⟨?_, generate_vertical_svg_height face shaper request scale ipo istr layers,
    fun w p lh i => rfl, ?_⟩
  · simp only [generate_vertical_svg]
    ring
  · intro _ hfs
    have hlh : 0 < request.font_size * 1.2 := mul_pos hfs (by norm_num)
    unfold vertical_col_center_x
    push_cast
    linarith

/-- Claim C6: in horizontal layout the canvas width is the maximum line
width plus `2 × 20`, the canvas height is `lineCount × (fontSize × 1.2) +
2 × 20`, each line starts at `(canvasWidth − lineWidth) / 2` (so the
centering is exactly symmetric), and line `i`'s baseline is
`padding + (i + 1) × lineHeight`. -/
theorem C6_horizontal_canvas_layout (face : Face) (request : SvgExportRequest)
    (scale : ℚ) (ipo istr : Bool) (layers : List StrokeLayer) :
    (generate_horizontal_svg face request scale ipo istr layers).width
      = maxLineWidth face scale request.text + 2 * 20 ∧
    (generate_horizontal_svg face request scale ipo istr layers).height
      = ((rustLines request.text).length : ℚ) * (request.font_size * 1.2)
        + 2 * 20 ∧
    (∀ w lw : ℚ, hor_start_x w lw = (w - lw) / 2) ∧
    (∀ w lw : ℚ, hor_start_x w lw + lw + hor_start_x w lw = w) ∧
    (∀ (p lh : ℚ) (i : ℕ),
      hor_baseline_y p lh i = p + ((i : ℚ) + 1) * lh) := by
  refine ⟨generate_horizontal_svg_width face request scale ipo istr layers,
    ?_, fun w lw => rfl, ?_, fun p lh i => rfl⟩
  · simp only [generate_horizontal_svg]
    ring
  · intro w lw
    unfold hor_start_x
    ring

/-- Claim C7: the vertical transform maps an outline point `(x, y)` to
`(columnCenterX + (x·scale − horAdvance/2), glyphTopY − y·scale)` with
`glyphTopY` the column cursor plus the resolved vertical origin, and both
path builders emit every coordinate rounded to two fractional decimal
digits. -/
theorem C7_vertical_transform_rounding :
    (∀ (b : VerticalPathBuilder) (x : ℚ),
      b.transform_x x = b.col_center_x + (x * b.scale - b.glyph_hor_advance / 2)) ∧
    (∀ (b : VerticalPathBuilder) (y : ℚ),
      b.transform_y y = b.glyph_top_y - y * b.scale) ∧
    (∀ (c o : ℚ), glyphTopY c o = c + o) ∧
    (∀ (b : VerticalPathBuilder) (x y : ℚ),
      (b.runCmd (OutlineCmd.moveTo x y)).path_data = b.path_data
        ++ [PathCmd.moveTo (round2 (b.transform_x x)) (round2 (b.transform_y y))]) ∧
    (∀ (b : VerticalPathBuilder) (x y : ℚ),
      (b.runCmd (OutlineCmd.lineTo x y)).path_data = b.path_data
        ++ [PathCmd.lineTo (round2 (b.transform_x x)) (round2 (b.transform_y y))]) ∧
    (∀ (b : VerticalPathBuilder) (x1 y1 x y : ℚ),
      (b.runCmd (OutlineCmd.quadTo x1 y1 x y)).path_data = b.path_data
        ++ [PathCmd.quadTo (round2 (b.transform_x x1)) (round2 (b.transform_y y1))
              (round2 (b.transform_x x)) (round2 (b.transform_y y))]) ∧
    (∀ (b : VerticalPathBuilder) (x1 y1 x2 y2 x y : ℚ),
      (b.runCmd (OutlineCmd.curveTo x1 y1 x2 y2 x y)).path_data = b.path_data
        ++ [PathCmd.curveTo (round2 (b.transform_x x1)) (round2 (b.transform_y y1))
              (round2 (b.transform_x x2)) (round2 (b.transform_y y2))
              (round2 (b.transform_x x)) (round2 (b.transform_y y))]) ∧
    (∀ (b : PathBuilder) (x y : ℚ),
      (b.runCmd (OutlineCmd.moveTo x y)).path_data = b.path_data
        ++ [PathCmd.moveTo (round2 (b.transform_x x)) (round2 (b.transform_y y))]) ∧
    (∀ (b : PathBuilder) (x y : ℚ),
      (b.runCmd (OutlineCmd.lineTo x y)).path_data = b.path_data
        ++ [PathCmd.lineTo (round2 (b.transform_x x)) (round2 (b.transform_y y))]) ∧
    (∀ (b : PathBuilder) (x1 y1 x y : ℚ),
      (b.runCmd (OutlineCmd.quadTo x1 y1 x y)).path_data = b.path_data
        ++ [PathCmd.quadTo (round2 (b.transform_x x1)) (round2 (b.transform_y y1))
              (round2 (b.transform_x x)) (round2 (b.transform_y y))]) ∧
    (∀ (b : PathBuilder) (x1 y1 x2 y2 x y : ℚ),
      (b.runCmd (OutlineCmd.curveTo x1 y1 x2 y2 x y)).path_data = b.path_data
        ++ [PathCmd.curveTo (round2 (b.transform_x x1)) (round2 (b.transform_y y1))
              (round2 (b.transform_x x2)) (round2 (b.transform_y y2))
              (round2 (b.transform_x x)) (round2 (b.transform_y y))]) ∧
    (∀ q : ℚ, hasTwoDecimalDigits (round2 q)) :=
  ⟨fun _ _ => rfl, fun _ _ => rfl, fun _ _ => rfl, fun _ _ _ => rfl,
   fun _ _ _ => rfl, fun _ _ _ _ _ => rfl, fun _ _ _ _ _ _ _ => rfl,
   fun _ _ _ => rfl, fun _ _ _ => rfl, fun _ _ _ _ _ => rfl,
   fun _ _ _ _ _ _ _ => rfl, fun q => ⟨ratRound (q * 100), rfl⟩⟩

/-- Claim C8: empty input text yields a document with no glyph groups whose
canvas is `padding × 2` in both dimensions — `40 × 40` in the horizontal
case, `(fontSize × 0.5 + 20) × 2` in the vertical case. -/
theorem C8_empty_text (face : Face) (shaper : String → List ShapedGlyph)
    (request : SvgExportRequest) (h : request.text = "") :
    (generate_svg face shaper request).groups = [] ∧
    (request.vertical = false →
      (generate_svg face shaper request).width = 40 ∧
      (generate_svg face shaper request).height = 40) ∧
    (request.vertical = true →
      (generate_svg face shaper request).width
        = (request.font_size * 0.5 + 20) * 2 ∧
      (generate_svg face shaper request).height
        = (request.font_size * 0.5 + 20) * 2) := by
  have hl : rustLines request.text = [] := by rw [h]; rfl
  cases hv : request.vertical with
  | false =>
      refine ⟨?_, fun _ => ⟨?_, ?_⟩, fun hc => absurd hc (by simp [hv])⟩ <;>
        simp [generate_svg, generate_horizontal_svg, hv, hl] <;> norm_num
  | true =>
      refine ⟨?_, fun hc => absurd hc (by simp [hv]), fun _ => ⟨?_, ?_⟩⟩ <;>
        simp [generate_svg, generate_vertical_svg, hv, hl]

/-- Claim C9: any export mode other than `path_only` and `fill_and_stroke`
(such as "foo") is accepted and produces exactly the document that
`export_mode = "fill"` produces: one fill-styled path per visible glyph and
no stroke paths. -/
theorem C9_unknown_export_mode (face : Face) (shaper : String → List ShapedGlyph)
    (request : SvgExportRequest)
    (h1 : request.export_mode ≠ "path_only")
    (h2 : request.export_mode ≠ "fill_and_stroke") :
    generate_svg face shaper request
      = generate_svg face shaper { request with export_mode := "fill" } ∧
    ∀ g ∈ (generate_svg face shaper request).groups,
      ∃ d, d ≠ [] ∧ g.paths = [SvgPathElem.filled d request.text_color] := by
  constructor
  · obtain ⟨fn, tx, fs, tc, sl, em, v⟩ := request
    simp only at h1 h2
    simp only [generate_svg]
    rw [show (em == "path_only") = false from beq_eq_false_iff_ne.2 h1,
        show (em == "fill_and_stroke") = false from beq_eq_false_iff_ne.2 h2,
        show (("fill" : String) == "path_only") = false from
          beq_eq_false_iff_ne.2 (by decide),
        show (("fill" : String) == "fill_and_stroke") = false from
          beq_eq_false_iff_ne.2 (by decide)]
    cases v with
    | false =>
        rw [if_neg (by simp : ¬(false = true)), if_neg (by simp : ¬(false = true))]
        exact generate_horizontal_svg_mode_irrel face fn tx tc fs sl em
          "fill" false false _ false false _
    | true =>
        rw [if_pos rfl, if_pos rfl]
        exact generate_vertical_svg_mode_irrel face shaper fn tx tc fs sl em
          "fill" true true _ false false _
  · intro g hg
    obtain ⟨ci, ech, d, hd, hgEq⟩ := generate_svg_mem face shaper request hg
    subst hgEq
    refine ⟨d, hd, ?_⟩
    simp [glyphPaths, beq_eq_false_iff_ne.2 h1, beq_eq_false_iff_ne.2 h2]

/-- Claim C10: every stroke-layer path element carries a fill attribute
equal to its stroke attribute (both are the layer's color), and its width is
twice the declared width of an enabled layer of the request. -/
theorem C10_stroke_fill_same_color (face : Face)
    (shaper : String → List ShapedGlyph) (request : SvgExportRequest)
    (g : GlyphGroup) (hg : g ∈ (generate_svg face shaper request).groups)
    (d : List PathCmd) (f s : String) (w : ℚ)
    (hp : SvgPathElem.stroked d f s w ∈ g.paths) :
    f = s ∧ ∃ l ∈ request.stroke_layers,
      l.enabled = true ∧ f = l.color ∧ s = l.color ∧ w = l.width * 2 := by
  obtain ⟨ci, ech, d0, hd0, hgEq⟩ := generate_svg_mem face shaper request hg
  subst hgEq
  have hp' : SvgPathElem.stroked d f s w ∈ glyphPaths
      (request.export_mode == "path_only")
      (request.export_mode == "fill_and_stroke")
      ((request.stroke_layers.filter (fun l => l.enabled)).reverse)
      request.text_color d0 := hp
  unfold glyphPaths at hp'
  split at hp'
  · simp at hp'
  · rcases List.mem_append.1 hp' with hmem | hmem
    · split at hmem
      · rcases List.mem_map.1 hmem with ⟨l, hl, hEq⟩
        injection hEq with e1 e2 e3 e4
        subst e2
        subst e3
        subst e4
        have hl2 := List.mem_filter.1 (List.mem_reverse.1 hl)
        exact ⟨rfl, l, hl2.1, hl2.2, rfl, rfl, rfl⟩
      · simp at hmem
    · simp at hmem

/-! ### Concrete instances

The Batteries rational operations are `@[irreducible]` by default, which
blocks kernel evaluation in `decide`; they are re-marked semireducible
locally so the fixtures evaluate. -/

section ConcreteInstances

attribute [local semireducible] Rat.add Rat.mul Rat.inv Rat.sub Rat.ofScientific

/-- Claim C1, counterexample: with an empty horizontal-advance table the
vertical engine resolves the glyph's horizontal advance to the requested
font size (100), not to zero as the claim states. -/
theorem C1_counterexample :
    noAdvFace.glyph_hor_advance 1 = none ∧
    (verticalGlyphInfos noAdvFace testShaper reqVertFS (1 / 10) "A").map
      (fun gi => gi.glyph_hor_advance) = [100] ∧
    (100 : ℚ) ≠ 0 :=
  ⟨rfl, by decide, by norm_num⟩

/-- Claim C2, witness at `testFace`/`reqFS`. -/
theorem C2_witness :
    testGroupFS ∈ (generate_svg testFace testShaper reqFS).groups ∧
    reqFS.export_mode = "fill_and_stroke" ∧
    (∃ d, d ≠ [] ∧
      testGroupFS.paths
        = ((reqFS.stroke_layers.filter (fun l => l.enabled)).reverse.map
            (fun l => SvgPathElem.stroked d l.color l.color (l.width * 2)))
          ++ [SvgPathElem.filled d reqFS.text_color] ∧
      testGroupFS.paths.length
        = (reqFS.stroke_layers.filter (fun l => l.enabled)).length + 1) :=
  ⟨by decide, rfl,
   (C2_export_mode_path_layers testFace testShaper reqFS testGroupFS (by decide)).2 rfl⟩

/-- Claim C5, witness at `testFace`/`reqVert`. -/
theorem C5_witness :
    2 ≤ (rustLines reqVert.text).length ∧ (0 : ℚ) < reqVert.font_size ∧
    vertical_col_center_x
        ((generate_vertical_svg testFace testShaper reqVert (1 / 10) false false []).width)
        (reqVert.font_size * 0.5 + 20) (reqVert.font_size * 1.2) 1
      < vertical_col_center_x
        ((generate_vertical_svg testFace testShaper reqVert (1 / 10) false false []).width)
        (reqVert.font_size * 0.5 + 20) (reqVert.font_size * 1.2) 0 :=
  ⟨by decide, by norm_num [reqVert, reqFS],
   (C5_vertical_canvas_layout testFace testShaper reqVert (1 / 10) false false
     []).2.2.2 (by decide) (by norm_num [reqVert, reqFS])⟩

/-- Claim C8, witness at `testFace`/`reqEmpty`. -/
theorem C8_witness :
    reqEmpty.text = "" ∧
    (generate_svg testFace testShaper reqEmpty).groups = [] ∧
    (generate_svg testFace testShaper reqEmpty).width = 40 ∧
    (generate_svg testFace testShaper reqEmpty).height = 40 :=
  ⟨rfl, (C8_empty_text testFace testShaper reqEmpty rfl).1,
   ((C8_empty_text testFace testShaper reqEmpty rfl).2.1 rfl).1,
   ((C8_empty_text testFace testShaper reqEmpty rfl).2.1 rfl).2⟩

/-- Claim C9, witness at `testFace`/`reqFoo`. -/
theorem C9_witness :
    reqFoo.export_mode ≠ "path_only" ∧ reqFoo.export_mode ≠ "fill_and_stroke" ∧
    generate_svg testFace testShaper reqFoo
      = generate_svg testFace testShaper { reqFoo with export_mode := "fill" } :=
  ⟨by decide, by decide,
   (C9_unknown_export_mode testFace testShaper reqFoo (by decide) (by decide)).1⟩

/-- Claim C10, witness at `testFace`/`reqFS`. -/
theorem C10_witness :
    SvgPathElem.stroked testPathData "blue" "blue" 6 ∈ testGroupFS.paths ∧
    ("blue" = "blue" ∧ ∃ l ∈ reqFS.stroke_layers,
      l.enabled = true ∧ "blue" = l.color ∧ "blue" = l.color ∧
      (6 : ℚ) = l.width * 2) :=
  ⟨by decide,
   C10_stroke_fill_same_color testFace testShaper reqFS testGroupFS (by decide)
     testPathData "blue" "blue" 6 (by decide)⟩

end ConcreteInstances

end FontScope
